import Mathlib

/-!
Verification development for the survcafe camera streaming appliance.

The definitions below are a shallow embedding of the core of the repository:

* `NetOutput` (src/output/net_output.cpp / .hpp): the broadcast server —
  its connection list, the `closed_` flag, `outputBuffer`, `stopServer`,
  `acceptConnection`.
* `CameraManager` (src/apps/libcamera_server.cpp / .hpp): the server state
  machine (`ServerState`, `ServerCommand`, `executeCommand`,
  `startNetworkStream`, `stopNetworkStream`), the `serve_forever` iteration
  (frame drain gating, state handling / timeout check, connection accept),
  `get_command`, and `CameraManager::stop`.
* `LibcameraApp` (src/core/libcamera_app.cpp / .hpp): the message queue
  (`MessageQueue::Post/Wait/Clear`), `queueRequest`, `StopCamera`,
  `CloseCamera`, and the reference-counted `CompletedRequestPtr` recycle
  semantics (a `std::shared_ptr` with `queueRequest` as custom deleter).

File descriptors, byte buffers and frames are modelled as `Nat`; the result
of a `send(2)` call is an oracle from the descriptor to an outcome.
-/

/-- Outcome of one blocking `send(2)` call on a connection, as the code
distinguishes them: a nonnegative return value (`ok`), a negative return
with `errno == EPIPE` (`pipeErr`), or a negative return with any other
`errno` (`otherErr`, which the code only logs). -/
inductive SendOutcome
  | ok
  | pipeErr
  | otherErr
deriving DecidableEq

/-- Trace entry for one iteration of the outer `for (auto fd : connections_)`
loop of `NetOutput::outputBuffer`: the descriptor, the value of the shared
`size` variable on entry, the bytes delivered to this connection, and whether
the connection was pushed onto `closed_fds`. -/
structure ConnStep where
  fd : Nat
  sizeBefore : Nat
  delivered : Nat
  marked : Bool
deriving DecidableEq

/-- One iteration of `outputBuffer`'s outer loop for connection `fd`, given
the current value of the shared `size` variable.  The inner
`for (ptr = mem; size;)` loop is skipped when `size == 0`; otherwise
`bytes_to_send = std::min(size, max_size) = size` (since `max_size` is set to
`size` on entry), so exactly one `send` of the whole remaining `size` is
attempted: on success `size -= bytes_to_send` zeroes the shared variable, on
`EPIPE` the fd is pushed onto `closed_fds` and the loop breaks, on any other
error the loop just breaks.  Returns (bytes delivered, new shared size,
marked for removal). -/
def connSend (oracle : Nat → SendOutcome) (fd : Nat) (size : Nat) :
    Nat × Nat × Bool :=
  if size = 0 then (0, 0, false)
  else
    match oracle fd with
    | SendOutcome.ok => (size, 0, false)
    | SendOutcome.pipeErr => (0, size, true)
    | SendOutcome.otherErr => (0, size, false)

/-- The outer loop of `NetOutput::outputBuffer` over the connection list,
threading the shared `size` variable from one connection to the next (the
source decrements the function parameter `size`, not a per-connection
counter). -/
def sendLoop (oracle : Nat → SendOutcome) : List Nat → Nat → List ConnStep
  | [], _ => []
  | fd :: fds, size =>
    let r := connSend oracle fd size
    ⟨fd, size, r.1, r.2.2⟩ :: sendLoop oracle fds r.2.1

/-- The cleanup phase of `outputBuffer`: for each fd in `closed_fds`, in
order, close it and erase its first occurrence from `connections_`. -/
def cleanConnections (conns : List Nat) (closedFds : List Nat) : List Nat :=
  closedFds.foldl (fun cs fd => cs.erase fd) conns

/-- State of a `NetOutput` object: the `connections_` vector, whether the
listening socket is open, and the `closed_` flag. -/
structure NetState where
  connections : List Nat
  listenOpen : Bool
  closedFlag : Bool
deriving DecidableEq

/-- The `NetOutput` constructor: no connections, `closed_ = false`. -/
def NetOutput.construct : NetState :=
  ⟨[], false, false⟩

/-- `NetOutput::startServer`: opens the listening socket. -/
def NetOutput.startServer (s : NetState) : NetState :=
  { s with listenOpen := true }

/-- `NetOutput::stopServer`: closes the listening socket and every
connection, clears `connections_`, and sets `closed_ = true`. -/
def NetOutput.stopServer (_ : NetState) : NetState :=
  ⟨[], false, true⟩

/-- `NetOutput::acceptConnection`: pushes the accepted fd onto
`connections_`; the listening socket stays open. -/
def NetOutput.acceptConnection (s : NetState) (fd : Nat) : NetState :=
  { s with connections := s.connections ++ [fd] }

/-- `NetOutput::closed`: returns the `closed_` flag. -/
def NetOutput.closed (s : NetState) : Bool :=
  s.closedFlag

/-- The per-connection trace of one `NetOutput::outputBuffer` call on state
`s` with a chunk of `size` bytes. -/
def outputBufferSteps (s : NetState) (size : Nat) (oracle : Nat → SendOutcome) :
    List ConnStep :=
  sendLoop oracle s.connections size

/-- The `closed_fds` vector built by one `outputBuffer` call, in push order. -/
def outputBufferClosedFds (s : NetState) (size : Nat)
    (oracle : Nat → SendOutcome) : List Nat :=
  ((outputBufferSteps s size oracle).filter (fun e => e.marked)).map
    (fun e => e.fd)

/-- `NetOutput::outputBuffer`: runs the send loop over all connections and
then the cleanup phase.  The `closed_` flag is not touched. -/
def NetOutput.outputBuffer (s : NetState) (size : Nat)
    (oracle : Nat → SendOutcome) : NetState :=
  { s with
    connections :=
      cleanConnections s.connections (outputBufferClosedFds s size oracle) }

/-- Total bytes delivered to descriptor `fd` by one `outputBuffer` call. -/
def deliveredTo (steps : List ConnStep) (fd : Nat) : Nat :=
  ((steps.filter (fun e => e.fd = fd)).map (fun e => e.delivered)).sum

/-- `ServerState` from libcamera_server.hpp. -/
inductive ServerState
  | CONNECTED
  | WAITING_CONNECTION
  | IDLE
deriving DecidableEq

/-- `ServerCommand` from libcamera_server.hpp.  `NOP` is declared but never
produced anywhere in the repository. -/
inductive ServerCommand
  | OPEN_NETWORK_STREAM
  | CLOSE_NETWORK_STREAM
  | CAPTURE_IMAGE
  | NOP
deriving DecidableEq

/-- State of a `CameraManager`: `m_state`, the `m_net_output` pointer
(`none` is `nullptr`), the member `m_start_waiting_timestamp` (what the
assignment in `startNetworkStream` targets), and whether the encoder is
running.  Wall-clock times are seconds since the epoch, as `Int` (`time_t`
arithmetic). -/
structure ManagerState where
  state : ServerState
  netOutput : Option NetState
  memberWaitTs : Int
  encoderRunning : Bool
deriving DecidableEq

/-- The initial `CameraManager`: `m_state {ServerState::IDLE}`,
`m_net_output {nullptr}`. -/
def initialManager : ManagerState :=
  ⟨ServerState.IDLE, none, 0, false⟩

/-- `CameraManager::startNetworkStream`: only from `IDLE`, construct a
`NetOutput`, start its server, move to `WAITING_CONNECTION`, and record the
wait-start time (`time(NULL)` is passed in as `now`). -/
def startNetworkStream (m : ManagerState) (now : Int) : ManagerState :=
  if m.state = ServerState.IDLE then
    { m with
      netOutput := some (NetOutput.startServer NetOutput.construct),
      state := ServerState.WAITING_CONNECTION,
      memberWaitTs := now }
  else m

/-- `CameraManager::stopNetworkStream`: only from `WAITING_CONNECTION` or
`CONNECTED`, delete the `NetOutput` (its destructor runs `stopServer`,
closing the listening socket and all connections), stop the encoder when
`CONNECTED`, and return to `IDLE`. -/
def stopNetworkStream (m : ManagerState) : ManagerState :=
  if m.state = ServerState.WAITING_CONNECTION ∨ m.state = ServerState.CONNECTED
  then
    { m with
      netOutput := none,
      encoderRunning :=
        if m.state = ServerState.CONNECTED then false else m.encoderRunning,
      state := ServerState.IDLE }
  else m

/-- `CameraManager::executeCommand`: the switch over the command.  The
`CAPTURE_IMAGE` body is commented out in the source and `NOP` has no case,
so both leave the manager unchanged. -/
def executeCommand (m : ManagerState) (c : ServerCommand) (now : Int) :
    ManagerState :=
  match c with
  | ServerCommand.OPEN_NETWORK_STREAM => startNetworkStream m now
  | ServerCommand.CLOSE_NETWORK_STREAM => stopNetworkStream m
  | ServerCommand.CAPTURE_IMAGE => m
  | ServerCommand.NOP => m

/-- The accept branch of `serve_forever` (`pselect` reported the listening
socket readable): only possible while `m_net_output` is non-null (otherwise
no descriptor is watched); accepts the client, registers the encoder output
callback, starts the encoder, and sets `m_state = CONNECTED`. -/
def acceptEvent (m : ManagerState) (fd : Nat) : ManagerState :=
  match m.netOutput with
  | none => m
  | some net =>
    { m with
      netOutput := some (NetOutput.acceptConnection net fd),
      encoderRunning := true,
      state := ServerState.CONNECTED }

/-- `SERVER_WAITING_TIMEOUT` (600 seconds). -/
def SERVER_WAITING_TIMEOUT : Int := 600

/-- The `Handling state` switch of one `serve_forever` iteration: in
`CONNECTED`, push `CLOSE_NETWORK_STREAM` when the `NetOutput` reports
closed; in `WAITING_CONNECTION`, push `CLOSE_NETWORK_STREAM` when
`time(NULL) - start_waiting_timestamp > SERVER_WAITING_TIMEOUT`, where
`start_waiting_timestamp` is the variable the comparison actually reads. -/
def handleState (m : ManagerState) (now : Int) (localWaitTs : Int) :
    List ServerCommand :=
  match m.state with
  | ServerState.CONNECTED =>
    match m.netOutput with
    | some net =>
      if NetOutput.closed net then [ServerCommand.CLOSE_NETWORK_STREAM] else []
    | none => []
  | ServerState.WAITING_CONNECTION =>
    if now - localWaitTs > SERVER_WAITING_TIMEOUT
    then [ServerCommand.CLOSE_NETWORK_STREAM] else []
  | ServerState.IDLE => []

/-- The commands one `serve_forever` iteration pushes during `Handling
state`: the function-local `time_t start_waiting_timestamp = 0;` declared at
the top of `serve_forever` is never reassigned anywhere in the loop (the
assignment in `startNetworkStream` targets a different variable), so the
timeout comparison always reads 0. -/
def serveIterCommands (m : ManagerState) (now : Int) : List ServerCommand :=
  handleState m now 0

/-- The events that can reach the manager inside one `serve_forever`
iteration: a control command, an accepted connection, or a plain pass
(state handling plus a `pselect` round that reports no connection). -/
inductive ServerEvent
  | cmd (c : ServerCommand)
  | connectionAccepted (fd : Nat)
  | tick
deriving DecidableEq

/-- One manager transition per event: commands go through `executeCommand`,
an accepted connection through the accept branch, and a plain pass executes
whatever commands `Handling state` pushed. -/
def stepEvent (m : ManagerState) (now : Int) : ServerEvent → ManagerState
  | ServerEvent.cmd c => executeCommand m c now
  | ServerEvent.connectionAccepted fd => acceptEvent m fd
  | ServerEvent.tick =>
    (serveIterCommands m now).foldl (fun s c => executeCommand s c now) m

/-- Invariant of the manager: `m_net_output` is null exactly in `IDLE`
(established by the initial state and preserved by every transition). -/
def managerInv (m : ManagerState) : Prop :=
  m.state = ServerState.IDLE ↔ m.netOutput = none

/-- `get_command` (libcamera_server.cpp): recognizes the three command
words; on any other input control flow reaches the end of the non-void
function without a `return` statement (undefined behavior in C++), modelled
as `none`; no branch returns `ServerCommand::NOP`. -/
def get_command (input : String) : Option ServerCommand :=
  if input = "start_video_server" then some ServerCommand.OPEN_NETWORK_STREAM
  else if input = "stop_video_server" then
    some ServerCommand.CLOSE_NETWORK_STREAM
  else if input = "capture_image" then some ServerCommand.CAPTURE_IMAGE
  else none

/-- What happens to one drained frame in `serve_forever`: submitted to the
encoder via `EncodeBuffer`, or simply released (the popped message is
destroyed without encoding, recycling the frame). -/
inductive FrameAction
  | encode
  | release
deriving DecidableEq

/-- The frame-drain loop of one `serve_forever` iteration: each message is
popped from the queue returned by `Wait()` and its frame is submitted to the
encoder exactly when `m_state == ServerState::CONNECTED`, otherwise the
popped message is the last holder and the frame is released. -/
def drainQueue (state : ServerState) : List Nat → List (Nat × FrameAction)
  | [] => []
  | f :: fs =>
    (f,
      if state = ServerState.CONNECTED then FrameAction.encode
      else FrameAction.release) :: drainQueue state fs

/-- `LibcameraApp::MessageQueue`: its `queue_` contents. -/
structure MessageQueue (α : Type) where
  queue : List α
deriving DecidableEq

/-- `MessageQueue::Post`: pushes the message at the tail and calls
`cond_.notify_one()`; the second component counts the wakeup signals issued
(exactly one per Post). -/
def MessageQueue.Post {α : Type} (q : MessageQueue α) (m : α) :
    MessageQueue α × Nat :=
  (⟨q.queue ++ [m]⟩, 1)

/-- `MessageQueue::Wait`: blocks until `queue_` is non-empty (modelled as
`none`), then returns the whole queue for the consumer to drain. -/
def MessageQueue.Wait {α : Type} (q : MessageQueue α) : Option (List α) :=
  if q.queue.isEmpty then none else some q.queue

/-- `MessageQueue::Clear`: `queue_ = \x7b\x7d;` under the lock. -/
def MessageQueue.Clear {α : Type} (_ : MessageQueue α) : MessageQueue α :=
  ⟨[]⟩

/-- A producer-side operation on the message queue: a `Post` or a `Clear`. -/
inductive QueueOp (α : Type)
  | post (m : α)
  | clear
deriving DecidableEq

/-- Applies a sequence of queue operations in order. -/
def applyOps {α : Type} (q : MessageQueue α) : List (QueueOp α) → MessageQueue α
  | [] => q
  | QueueOp.post m :: ops => applyOps (MessageQueue.Post q m).1 ops
  | QueueOp.clear :: ops => applyOps (MessageQueue.Clear q) ops

/-- The messages posted by a sequence of operations, in order. -/
def postedItems {α : Type} : List (QueueOp α) → List α
  | [] => []
  | QueueOp.post m :: ops => m :: postedItems ops
  | QueueOp.clear :: ops => postedItems ops

/-- Lifecycle events of one `CompletedRequestPtr` (a `std::shared_ptr` whose
custom deleter is `LibcameraApp::queueRequest`): a holder is copied, or a
holder is destroyed. -/
inductive RefEvent
  | copy
  | drop
deriving DecidableEq

/-- The reference count after processing the events, starting from `c`
(construction in `requestComplete` starts it at 1). -/
def refCountFrom : Nat → List RefEvent → Nat
  | c, [] => c
  | c, RefEvent.copy :: es => refCountFrom (c + 1) es
  | c, RefEvent.drop :: es => refCountFrom (c - 1) es

/-- How many times the recycle hook (the custom deleter, `queueRequest`) has
run after processing the events from count `c`: `std::shared_ptr` invokes
the deleter exactly when a destruction takes the count from 1 to 0. -/
def recycleCallsFrom : Nat → List RefEvent → Nat
  | _, [] => 0
  | c, RefEvent.copy :: es => recycleCallsFrom (c + 1) es
  | c, RefEvent.drop :: es => (if c = 1 then 1 else 0) + recycleCallsFrom (c - 1) es

/-- A well-formed lifecycle from count `c`: holders are only copied or
destroyed while at least one holder exists, and once the count reaches 0 the
object is gone, so no further event may occur. -/
def validFrom : Nat → List RefEvent → Bool
  | _, [] => true
  | 0, _ :: _ => false
  | c + 1, RefEvent.copy :: es => validFrom (c + 2) es
  | c + 1, RefEvent.drop :: es => validFrom c es

/-- State of a `LibcameraApp` as far as request recycling and shutdown are
concerned: `camera_started_`, `camera_acquired_`, the `completed_requests_`
set (as a list of request ids), the `msg_queue_`, and the requests requeued
to the camera. -/
structure AppState where
  camera_started : Bool
  camera_acquired : Bool
  completed_requests : List Nat
  msg_queue : MessageQueue Nat
  queuedToCamera : List Nat
deriving DecidableEq

/-- `LibcameraApp::queueRequest` (the recycle hook): after taking the
camera-stop lock, if the camera has been stopped it returns without doing
anything; otherwise, if the request is no longer in `completed_requests_`
(e.g. cleared by a stop/restart) it also returns; otherwise it erases the
request from the set and requeues it to the camera. -/
def queueRequest (s : AppState) (cr : Nat) : AppState :=
  if s.camera_started = false then s
  else if cr ∈ s.completed_requests then
    { s with
      completed_requests := s.completed_requests.erase cr,
      queuedToCamera := s.queuedToCamera ++ [cr] }
  else s

/-- `LibcameraApp::StopCamera`: stops the camera, clears
`completed_requests_`, clears the message queue via `msg_queue_.Clear()`,
and clears the pending requests. -/
def StopCamera (s : AppState) : AppState :=
  { s with
    camera_started := false,
    completed_requests := [],
    msg_queue := MessageQueue.Clear s.msg_queue }

/-- `LibcameraApp::CloseCamera`: releases the acquired camera and resets the
camera and camera-manager pointers.  It does not stop the camera and does
not touch the message queue. -/
def CloseCamera (s : AppState) : AppState :=
  { s with camera_acquired := false }

/-- State of the whole `CameraManager` process wrapper: the embedded
`LibcameraApp`, the `m_stop_request` flag, and whether the serving thread
has been joined. -/
structure CameraManagerState where
  app : AppState
  stop_request : Bool
  threadJoined : Bool
deriving DecidableEq

/-- `CameraManager::stop`: sets `m_stop_request = true`, joins the serving
thread, then calls `m_app.CloseCamera()` twice.  It never calls
`StopCamera`, so neither the camera stop nor `msg_queue_.Clear()` happens
here. -/
def CameraManager.stop (m : CameraManagerState) : CameraManagerState :=
  { m with
    stop_request := true,
    threadJoined := true,
    app := CloseCamera (CloseCamera m.app) }

/-- C1: For every Broadcast call (NetOutput::outputBuffer) with a chunk of
bytes and every set of currently active connections, the full chunk is
written to every active connection in the set.  The code violates this: the
shared `size` parameter is decremented to zero by the first successful send,
so with two active connections and a 5-byte chunk where every send succeeds,
connection 1 receives all 5 bytes and connection 2 receives 0 bytes (no send
is even attempted for it). -/
theorem C1_fanout_first_connection_only :
    outputBufferSteps ⟨[1, 2], true, false⟩ 5 (fun _ => SendOutcome.ok)
      = [⟨1, 5, 5, false⟩, ⟨2, 0, 0, false⟩]
    ∧ deliveredTo
        (outputBufferSteps ⟨[1, 2], true, false⟩ 5 (fun _ => SendOutcome.ok)) 1
        = 5
    ∧ deliveredTo
        (outputBufferSteps ⟨[1, 2], true, false⟩ 5 (fun _ => SendOutcome.ok)) 2
        = 0
    ∧ (NetOutput.outputBuffer ⟨[1, 2], true, false⟩ 5
        (fun _ => SendOutcome.ok)).connections = [1, 2] := by
  refine ⟨rfl, rfl, rfl, rfl⟩

theorem connSend_marked (oracle : Nat → SendOutcome) (fd size : Nat)
    (h : (connSend oracle fd size).2.2 = true) :
    oracle fd = SendOutcome.pipeErr ∧ size ≠ 0 := by
  unfold connSend at h
  by_cases hs : size = 0
  · simp [hs] at h
  · simp only [hs, if_false] at h
    cases ho : oracle fd
    · simp [ho] at h
    · exact ⟨rfl, hs⟩
    · simp [ho] at h

theorem sendLoop_map_fd (oracle : Nat → SendOutcome) :
    ∀ (conns : List Nat) (size : Nat),
      (sendLoop oracle conns size).map ConnStep.fd = conns := by
  intro conns
  induction conns with
  | nil => intro size; rfl
  | cons fd fds ih => intro size; simp [sendLoop, ih]

theorem sendLoop_marked (oracle : Nat → SendOutcome) :
    ∀ (conns : List Nat) (size : Nat) (e : ConnStep),
      e ∈ sendLoop oracle conns size → e.marked = true →
      oracle e.fd = SendOutcome.pipeErr := by
  intro conns
  induction conns with
  | nil => intro size e he _; simp [sendLoop] at he
  | cons fd fds ih =>
      intro size e he hm
      simp only [sendLoop, List.mem_cons] at he
      rcases he with rfl | he
      · exact (connSend_marked oracle fd size hm).1
      · exact ih _ e he hm

theorem cleanConnections_mem :
    ∀ (closedFds conns : List Nat), conns.Nodup → ∀ a : Nat,
      a ∈ cleanConnections conns closedFds ↔ a ∈ conns ∧ a ∉ closedFds := by
  intro closedFds
  induction closedFds with
  | nil => intro conns _ a; simp [cleanConnections]
  | cons fd rest ih =>
      intro conns h a
      have step : cleanConnections conns (fd :: rest)
          = cleanConnections (conns.erase fd) rest := rfl
      rw [step, ih (conns.erase fd) (h.erase fd) a, h.mem_erase_iff,
        List.mem_cons]
      tauto

theorem sendLoop_closedFds_no_ok (oracle : Nat → SendOutcome) :
    ∀ (conns : List Nat) (size : Nat), size ≠ 0 →
      (∀ fd, fd ∈ conns → oracle fd ≠ SendOutcome.ok) →
      ((sendLoop oracle conns size).filter (fun e => e.marked)).map
          (fun e => e.fd)
        = conns.filter (fun fd => oracle fd = SendOutcome.pipeErr) := by
  intro conns
  induction conns with
  | nil => intro size _ _; rfl
  | cons fd fds ih =>
      intro size hs h
      have hfd : oracle fd ≠ SendOutcome.ok := h fd (by simp)
      have htail : ∀ g, g ∈ fds → oracle g ≠ SendOutcome.ok :=
        fun g hg => h g (by simp [hg])
      cases ho : oracle fd
      · exact absurd ho hfd
      · simp [sendLoop, connSend, hs, ho, List.filter_cons, ih size hs htail]
      · simp [sendLoop, connSend, hs, ho, List.filter_cons, ih size hs htail]

/-- C3 counterexample: the claim says a connection whose write fails is
marked for removal and removed within the same Broadcast call.  With
connections `[1, 2]`, a 5-byte chunk, and fd 1 failing with an errno other
than `EPIPE` (e.g. `ECONNRESET`), the code only logs the error: fd 1 is
attempted (sizeBefore 5, delivered 0) yet the connection set afterward is
still `[1, 2]`. -/
theorem C3_non_epipe_failure_not_removed :
    outputBufferSteps ⟨[1, 2], true, false⟩ 5
        (fun fd => if fd = 1 then SendOutcome.otherErr else SendOutcome.ok)
      = [⟨1, 5, 0, false⟩, ⟨2, 5, 5, false⟩]
    ∧ (NetOutput.outputBuffer ⟨[1, 2], true, false⟩ 5
        (fun fd => if fd = 1 then SendOutcome.otherErr else SendOutcome.ok)
        ).connections = [1, 2] := by
  exact ⟨rfl, rfl⟩

/-- C3 (amended): within one Broadcast call, the outer write loop visits
every connection; only connections whose attempted send fails with `EPIPE`
are pushed onto `closed_fds`; after the loop every `closed_fds` entry is
closed and removed from the active set and every other connection remains;
and when the chunk is nonempty and no send succeeds (so the shared size
counter is never zeroed), `closed_fds` is exactly the set of connections
failing with `EPIPE`. -/
theorem C3_epipe_failure_isolation (s : NetState) (size : Nat)
    (oracle : Nat → SendOutcome) (hnd : s.connections.Nodup) :
    ((outputBufferSteps s size oracle).map ConnStep.fd = s.connections)
    ∧ (∀ fd, fd ∈ outputBufferClosedFds s size oracle →
        oracle fd = SendOutcome.pipeErr)
    ∧ (∀ fd, fd ∈ (NetOutput.outputBuffer s size oracle).connections ↔
        fd ∈ s.connections ∧ fd ∉ outputBufferClosedFds s size oracle)
    ∧ (size ≠ 0 → (∀ fd, fd ∈ s.connections → oracle fd ≠ SendOutcome.ok) →
        outputBufferClosedFds s size oracle
          = s.connections.filter (fun fd => oracle fd = SendOutcome.pipeErr)) := by
  refine ⟨sendLoop_map_fd oracle s.connections size, ?_, ?_, ?_⟩
  · intro fd hfd
    simp only [outputBufferClosedFds, List.mem_map, List.mem_filter] at hfd
    obtain ⟨e, ⟨he, hm⟩, rfl⟩ := hfd
    exact sendLoop_marked oracle s.connections size e he (by simpa using hm)
  · intro fd
    exact cleanConnections_mem (outputBufferClosedFds s size oracle)
      s.connections hnd fd
  · intro hs h
    exact sendLoop_closedFds_no_ok oracle s.connections size hs h

theorem C3_epipe_failure_isolation_witness :
    (outputBufferSteps ⟨[1, 2, 3], true, false⟩ 4
        (fun fd => if fd = 2 then SendOutcome.otherErr else SendOutcome.pipeErr)
        ).map ConnStep.fd = [1, 2, 3] :=
  (C3_epipe_failure_isolation ⟨[1, 2, 3], true, false⟩ 4
    (fun fd => if fd = 2 then SendOutcome.otherErr else SendOutcome.pipeErr)
    (by decide)).1

/-- C8 counterexample: the claim says `closed()` returns true exactly when
the active connection set is empty, in particular after the last connection
fails and is removed during a Broadcast call.  Starting from one accepted
connection (fd 5) and broadcasting a 3-byte chunk whose send fails with
`EPIPE`, the connection set becomes empty, yet `closed()` still returns
`false` (the `closed_` flag is only ever set by `stopServer`). -/
theorem C8_closed_not_emptiness :
    (NetOutput.outputBuffer
        (NetOutput.acceptConnection (NetOutput.startServer NetOutput.construct) 5)
        3 (fun _ => SendOutcome.pipeErr)).connections = []
    ∧ NetOutput.closed
        (NetOutput.outputBuffer
          (NetOutput.acceptConnection (NetOutput.startServer NetOutput.construct) 5)
          3 (fun _ => SendOutcome.pipeErr)) = false := by
  exact ⟨rfl, rfl⟩

/-- C8 (amended): `closed()` reports the `closed_` flag, not emptiness of the
active set: it is `false` from construction, unchanged by `startServer`,
`acceptConnection` and `outputBuffer` (even when `outputBuffer` removes the
last connection), and set `true` by `stopServer`, which also empties the
connection set — so `closed() = true` implies the set is empty, but not
conversely. -/
theorem C8_closed_is_stop_flag :
    NetOutput.closed NetOutput.construct = false
    ∧ (∀ s : NetState, NetOutput.closed (NetOutput.stopServer s) = true
        ∧ (NetOutput.stopServer s).connections = [])
    ∧ (∀ (s : NetState) (size : Nat) (oracle : Nat → SendOutcome),
        NetOutput.closed (NetOutput.outputBuffer s size oracle)
          = NetOutput.closed s)
    ∧ (∀ (s : NetState) (fd : Nat),
        NetOutput.closed (NetOutput.acceptConnection s fd) = NetOutput.closed s)
    ∧ (∀ s : NetState,
        NetOutput.closed (NetOutput.startServer s) = NetOutput.closed s) := by
  exact ⟨rfl, fun s => ⟨rfl, rfl⟩, fun s size oracle => rfl,
    fun s fd => rfl, fun s => rfl⟩

/-- C2: the claim says the state returns from WaitingForConnection to Idle
exactly when the time since the StartStream command exceeds 600 seconds, and
not earlier.  The code instead compares `time(NULL)` against the
`serve_forever`-local `start_waiting_timestamp`, which is initialized to 0
and never updated, so the comparison is `now > 600` regardless of when the
stream was started: starting the stream at wall-clock second 10000 and
running the next iteration one second later already pushes
`CLOSE_NETWORK_STREAM` and tears the waiting state down, although only one
second of the 600-second window has elapsed. -/
theorem C2_timeout_fires_immediately :
    (startNetworkStream initialManager 10000).state
      = ServerState.WAITING_CONNECTION
    ∧ (startNetworkStream initialManager 10000).memberWaitTs = 10000
    ∧ serveIterCommands (startNetworkStream initialManager 10000) 10001
        = [ServerCommand.CLOSE_NETWORK_STREAM]
    ∧ (stepEvent (startNetworkStream initialManager 10000) 10001
        ServerEvent.tick).state = ServerState.IDLE
    ∧ (stepEvent (startNetworkStream initialManager 10000) 10001
        ServerEvent.tick).netOutput = none
    ∧ (10001 : Int) - (startNetworkStream initialManager 10000).memberWaitTs
        = 1 := by
  decide

/-- C4: from Idle only StartStream changes the state (StopStream,
CaptureStill, an accept, and a plain iteration are all no-ops); from
WaitingForConnection StopStream returns to Idle and an accepted connection
moves to Streaming; from Streaming only StopStream returns to Idle (an
accept keeps the state, and a plain iteration is a no-op while the
NetOutput does not report closed); CaptureStill never changes the state;
and commands are idempotent: a repeated StartStream while not Idle and a
StopStream while Idle leave the manager unchanged. -/
theorem C4_state_machine (m : ManagerState) (now : Int) (fd : Nat)
    (hinv : managerInv m) :
    (m.state = ServerState.IDLE →
      executeCommand m ServerCommand.CLOSE_NETWORK_STREAM now = m
      ∧ acceptEvent m fd = m
      ∧ stepEvent m now ServerEvent.tick = m
      ∧ (executeCommand m ServerCommand.OPEN_NETWORK_STREAM now).state
          = ServerState.WAITING_CONNECTION)
    ∧ (m.state ≠ ServerState.IDLE →
      executeCommand m ServerCommand.OPEN_NETWORK_STREAM now = m)
    ∧ (m.state = ServerState.WAITING_CONNECTION →
      (executeCommand m ServerCommand.CLOSE_NETWORK_STREAM now).state
          = ServerState.IDLE
      ∧ (acceptEvent m fd).state = ServerState.CONNECTED)
    ∧ (m.state = ServerState.CONNECTED →
      (executeCommand m ServerCommand.CLOSE_NETWORK_STREAM now).state
          = ServerState.IDLE
      ∧ (acceptEvent m fd).state = ServerState.CONNECTED
      ∧ ((∀ net, m.netOutput = some net → NetOutput.closed net = false) →
          stepEvent m now ServerEvent.tick = m))
    ∧ executeCommand m ServerCommand.CAPTURE_IMAGE now = m
    ∧ executeCommand m ServerCommand.NOP now = m := by
  refine ⟨?_, ?_, ?_, ?_, rfl, rfl⟩
  · intro h
    have hnet : m.netOutput = none := hinv.mp h
    refine ⟨?_, ?_, ?_, ?_⟩
    · simp [executeCommand, stopNetworkStream, h]
    · simp [acceptEvent, hnet]
    · simp [stepEvent, serveIterCommands, handleState, h]
    · simp [executeCommand, startNetworkStream, h]
  · intro h
    simp [executeCommand, startNetworkStream, h]
  · intro h
    have hnet : m.netOutput ≠ none := fun hn => by
      have := hinv.mpr hn
      rw [h] at this
      exact ServerState.noConfusion this
    obtain ⟨net, hn⟩ := Option.ne_none_iff_exists'.mp hnet
    refine ⟨?_, ?_⟩
    · simp [executeCommand, stopNetworkStream, h]
    · simp [acceptEvent, hn]
  · intro h
    have hnet : m.netOutput ≠ none := fun hn => by
      have := hinv.mpr hn
      rw [h] at this
      exact ServerState.noConfusion this
    obtain ⟨net, hn⟩ := Option.ne_none_iff_exists'.mp hnet
    refine ⟨?_, ?_, ?_⟩
    · simp [executeCommand, stopNetworkStream, h]
    · simp [acceptEvent, hn]
    · intro hclosed
      simp [stepEvent, serveIterCommands, handleState, h, hn, hclosed net hn]

theorem C4_state_machine_witness :
    (executeCommand
        ⟨ServerState.WAITING_CONNECTION, some ⟨[], true, false⟩, 50, false⟩
        ServerCommand.CLOSE_NETWORK_STREAM 10).state = ServerState.IDLE
    ∧ (acceptEvent
        ⟨ServerState.WAITING_CONNECTION, some ⟨[], true, false⟩, 50, false⟩
        7).state = ServerState.CONNECTED :=
  (C4_state_machine
    ⟨ServerState.WAITING_CONNECTION, some ⟨[], true, false⟩, 50, false⟩
    10 7 (by unfold managerInv; decide)).2.2.1 rfl

/-- C5: for every frame drained from the Frame Relay by the main loop, the
frame is submitted to the encoder exactly when the state is CONNECTED
(Streaming); in Idle or WaitingForConnection every drained frame is
released without ever reaching the encoder. -/
theorem C5_gating :
    (∀ frames : List Nat,
      drainQueue ServerState.CONNECTED frames
        = frames.map (fun f => (f, FrameAction.encode)))
    ∧ (∀ (st : ServerState) (frames : List Nat), st ≠ ServerState.CONNECTED →
      drainQueue st frames
        = frames.map (fun f => (f, FrameAction.release))) := by
  constructor
  · intro frames
    induction frames with
    | nil => rfl
    | cons f fs ih => simp [drainQueue, ih]
  · intro st frames h
    induction frames with
    | nil => rfl
    | cons f fs ih => simp [drainQueue, ih, h]

theorem C5_gating_witness :
    drainQueue ServerState.IDLE [4, 5]
      = [(4, FrameAction.release), (5, FrameAction.release)] :=
  C5_gating.2 ServerState.IDLE [4, 5] (by decide)

theorem validFrom_zero :
    ∀ es : List RefEvent, validFrom 0 es = true → es = [] := by
  intro es h
  cases es with
  | nil => rfl
  | cons e es => simp [validFrom] at h

theorem recycleCallsFrom_spec :
    ∀ (es : List RefEvent) (c : Nat), 1 ≤ c → validFrom c es = true →
      recycleCallsFrom c es = (if refCountFrom c es = 0 then 1 else 0) := by
  intro es
  induction es with
  | nil =>
      intro c hc _
      have hne : ¬ refCountFrom c [] = 0 := by
        simp only [refCountFrom]
        omega
      simp [recycleCallsFrom, hne]
  | cons e es ih =>
      intro c hc hv
      obtain ⟨c', rfl⟩ : ∃ c', c = c' + 1 := ⟨c - 1, by omega⟩
      cases e with
      | copy =>
          simp only [validFrom] at hv
          simp only [recycleCallsFrom, refCountFrom]
          exact ih (c' + 1 + 1) (by omega) hv
      | drop =>
          simp only [validFrom] at hv
          by_cases h1 : c' = 0
          · subst h1
            have hes := validFrom_zero es hv
            subst hes
            simp [recycleCallsFrom, refCountFrom]
          · have := ih c' (by omega) hv
            simp only [recycleCallsFrom, refCountFrom, Nat.add_sub_cancel]
            rw [if_neg (by omega : ¬ c' + 1 = 1), this]
            simp

/-- C6: a CompletedRequestPtr created with reference count 1 invokes its
recycle hook (queueRequest) exactly once, on the destruction that takes the
count from one to zero, no matter how many copies of the handle were made,
and never while the count is still positive; and if the camera has already
been stopped when the hook runs, queueRequest leaves the application state
entirely unchanged (no requeue, no error). -/
theorem C6_recycle_exactly_once (es : List RefEvent) (s : AppState) (cr : Nat)
    (hv : validFrom 1 es = true) :
    (refCountFrom 1 es = 0 → recycleCallsFrom 1 es = 1)
    ∧ (0 < refCountFrom 1 es → recycleCallsFrom 1 es = 0)
    ∧ (s.camera_started = false → queueRequest s cr = s) := by
  refine ⟨?_, ?_, ?_⟩
  · intro h0
    rw [recycleCallsFrom_spec es 1 le_rfl hv, if_pos h0]
  · intro hpos
    rw [recycleCallsFrom_spec es 1 le_rfl hv, if_neg (by omega)]
  · intro h
    simp [queueRequest, h]

theorem C6_recycle_exactly_once_witness :
    recycleCallsFrom 1 [RefEvent.copy, RefEvent.drop, RefEvent.drop] = 1
    ∧ queueRequest ⟨false, true, [3], ⟨[]⟩, []⟩ 3
        = ⟨false, true, [3], ⟨[]⟩, []⟩ :=
  ⟨(C6_recycle_exactly_once [RefEvent.copy, RefEvent.drop, RefEvent.drop]
      ⟨false, true, [3], ⟨[]⟩, []⟩ 3 (by decide)).1 (by decide),
   (C6_recycle_exactly_once [RefEvent.copy, RefEvent.drop, RefEvent.drop]
      ⟨false, true, [3], ⟨[]⟩, []⟩ 3 (by decide)).2.2 rfl⟩

theorem applyOps_no_clear {α : Type} :
    ∀ (ops : List (QueueOp α)) (q : MessageQueue α), QueueOp.clear ∉ ops →
      (applyOps q ops).queue = q.queue ++ postedItems ops := by
  intro ops
  induction ops with
  | nil => intro q _; simp [applyOps, postedItems]
  | cons op ops ih =>
      intro q hno
      cases op with
      | post a =>
          have hno' : QueueOp.clear ∉ ops := fun h => hno (List.mem_cons_of_mem _ h)
          simp only [applyOps, postedItems, MessageQueue.Post]
          rw [ih ⟨q.queue ++ [a]⟩ hno']
          simp
      | clear => exact absurd (List.mem_cons_self _ _) hno

/-- C7: Post appends the item at the tail of the Frame Relay queue and
issues exactly one consumer wakeup; Wait blocks (returns none) exactly while
the queue is empty and otherwise returns the entire current backlog in
insertion order; Clear discards all pending items; and over any sequence of
operations containing no Clear, the queue contents are the original contents
followed by every posted item in FIFO order, so no item is ever dropped
except via Clear. -/
theorem C7_message_queue {α : Type} (q : MessageQueue α) (m : α)
    (ops : List (QueueOp α)) (hno : QueueOp.clear ∉ ops) :
    ((MessageQueue.Post q m).1.queue = q.queue ++ [m]
      ∧ (MessageQueue.Post q m).2 = 1)
    ∧ (q.queue = [] → MessageQueue.Wait q = none)
    ∧ (q.queue ≠ [] → MessageQueue.Wait q = some q.queue)
    ∧ (MessageQueue.Clear q).queue = []
    ∧ (applyOps q ops).queue = q.queue ++ postedItems ops := by
  refine ⟨⟨rfl, rfl⟩, ?_, ?_, rfl, applyOps_no_clear ops q hno⟩
  · intro h
    simp [MessageQueue.Wait, h]
  · intro h
    simp [MessageQueue.Wait, h]

theorem C7_message_queue_witness :
    (applyOps (⟨[1]⟩ : MessageQueue Nat)
        [QueueOp.post 2, QueueOp.post 3]).queue
      = (⟨[1]⟩ : MessageQueue Nat).queue
          ++ postedItems [QueueOp.post 2, QueueOp.post 3] :=
  (C7_message_queue (⟨[1]⟩ : MessageQueue Nat) 9
    [QueueOp.post 2, QueueOp.post 3] (by decide)).2.2.2.2

/-- C9: the claim says unrecognized control input produces no Command and no
transition.  In the model the unmatched branch of get_command yields none —
but only because the source simply falls off the end of a non-void function
there (undefined behavior: the caller may in fact receive an arbitrary
command value), while the NOP enumerator, which executeCommand treats as a
no-op, is never returned by any branch. -/
theorem C9_unrecognized_input :
    get_command "hello" = none
    ∧ get_command "start_video_server" = some ServerCommand.OPEN_NETWORK_STREAM
    ∧ get_command "stop_video_server" = some ServerCommand.CLOSE_NETWORK_STREAM
    ∧ get_command "capture_image" = some ServerCommand.CAPTURE_IMAGE
    ∧ (∀ (m : ManagerState) (now : Int),
        executeCommand m ServerCommand.NOP now = m) := by
  refine ⟨by decide, by decide, by decide, by decide, fun m now => rfl⟩

/-- C10: the claim says CameraManager::stop signals the worker, joins the
serving thread, then releases the Capture Engine and discards the Frame
Relay backlog via Clear().  The code sets the stop flag, joins, and calls
CloseCamera twice — it never calls StopCamera, so with one message (7) still
enqueued the camera remains started and the backlog remains in the queue
after stop(); the Clear() the claim describes only happens inside
StopCamera, which stop() never invokes. -/
theorem C10_stop_skips_backlog_clear :
    (CameraManager.stop ⟨⟨true, true, [3], ⟨[7]⟩, []⟩, false, false⟩).stop_request
        = true
    ∧ (CameraManager.stop ⟨⟨true, true, [3], ⟨[7]⟩, []⟩, false, false⟩).threadJoined
        = true
    ∧ (CameraManager.stop
        ⟨⟨true, true, [3], ⟨[7]⟩, []⟩, false, false⟩).app.camera_acquired
        = false
    ∧ (CameraManager.stop
        ⟨⟨true, true, [3], ⟨[7]⟩, []⟩, false, false⟩).app.msg_queue.queue
        = [7]
    ∧ (CameraManager.stop
        ⟨⟨true, true, [3], ⟨[7]⟩, []⟩, false, false⟩).app.camera_started
        = true
    ∧ (StopCamera ⟨true, true, [3], ⟨[7]⟩, []⟩).msg_queue.queue = [] := by
  refine ⟨rfl, rfl, rfl, rfl, rfl, rfl⟩
